import Mathlib

/-!
Shallow embedding of `certgen/tls/certificate.go` from
tls-inspector/certificate-factory, together with theorems checking the
natural-language specification of the certificate-issuance engine against
the code.

Modelling conventions:
* Go strings are `String`, byte slices are `List Nat`, `time.Time` is `Int`.
* Standard-library crypto/network primitives that the repository calls but
  does not define (`ecdsa.GenerateKey`, `crypto/rand`, `x509.Marshal…`,
  `x509.ParseCertificate`, `x509.CreateCertificate`, `sha1.Sum`,
  `net.ParseIP`, `url.Parse`) are abstracted into an `Env` record of
  functions / pre-drawn random values; all theorems quantify over `Env`.
* `encoding/hex` is embedded concretely (`hexDecode`, `hexEncode`), since
  the record-accessor claims depend on its failure behaviour.
* A Go `panic` is modelled by the `GenResult.aborted` constructor, kept
  distinct from an error value returned to the caller (`GenResult.err`).
-/

namespace CertGen

/-- `Name` describes a X.509 name object (certificate.go lines 19-26). -/
structure Name where
  Organization : String
  City : String
  Province : String
  Country : String
  CommonName : String
deriving DecidableEq

/-- The fields of Go's `pkix.Name` that the repository reads or writes. -/
structure PkixName where
  Country : List String
  Organization : List String
  Locality : List String
  Province : List String
  CommonName : String
deriving DecidableEq

/-- `func (n Name) pkix() pkix.Name` (certificate.go lines 28-44). -/
def Name.pkix (n : Name) : PkixName :=
  { Country := [n.Country]
    Organization := [n.Organization]
    Locality := [n.City]
    Province := [n.Province]
    CommonName := n.CommonName }

/-- `func nameFromPkix(p pkix.Name) Name` (certificate.go lines 46-68):
starts from the zero `Name` with `CommonName` copied, then assigns each
field from the head of the corresponding attribute list when non-empty. -/
def nameFromPkix (p : PkixName) : Name :=
  { CommonName := p.CommonName
    Organization := match p.Organization with
      | x :: _ => x
      | [] => ""
    City := match p.Locality with
      | x :: _ => x
      | [] => ""
    Province := match p.Province with
      | x :: _ => x
      | [] => ""
    Country := match p.Country with
      | x :: _ => x
      | [] => "" }

/-- `DateRange` (certificate.go lines 70-74), `time.Time` modelled as `Int`. -/
structure DateRange where
  NotBefore : Int
  NotAfter : Int
deriving DecidableEq

/-- `AlternateNameTypeDNS` (certificate.go line 83). -/
def AlternateNameTypeDNS : String := "dns"

/-- `AlternateNameTypeEmail` (certificate.go line 85). -/
def AlternateNameTypeEmail : String := "email"

/-- `AlternateNameTypeIP` (certificate.go line 87). -/
def AlternateNameTypeIP : String := "ip"

/-- `AlternateNameTypeURI` (certificate.go line 89). -/
def AlternateNameTypeURI : String := "uri"

/-- `AlternateName` (certificate.go lines 92-96); the Go field `Type` is a
reserved word in Lean and is rendered `Type'`. -/
structure AlternateName where
  Type' : String
  Value : String
deriving DecidableEq

/-- `KeyUsage` (certificate.go lines 98-118). -/
structure KeyUsage where
  DigitalSignature : Bool
  ContentCommitment : Bool
  KeyEncipherment : Bool
  DataEncipherment : Bool
  KeyAgreement : Bool
  CertSign : Bool
  CRLSign : Bool
  EncipherOnly : Bool
  DecipherOnly : Bool
  ServerAuth : Bool
  ClientAuth : Bool
  CodeSigning : Bool
  EmailProtection : Bool
  TimeStamping : Bool
  OCSPSigning : Bool
deriving DecidableEq

/-- Go `x509.KeyUsageDigitalSignature` = 1 << 0. -/
def KeyUsageDigitalSignature : Nat := 1
/-- Go `x509.KeyUsageContentCommitment` = 1 << 1. -/
def KeyUsageContentCommitment : Nat := 2
/-- Go `x509.KeyUsageKeyEncipherment` = 1 << 2. -/
def KeyUsageKeyEncipherment : Nat := 4
/-- Go `x509.KeyUsageDataEncipherment` = 1 << 3. -/
def KeyUsageDataEncipherment : Nat := 8
/-- Go `x509.KeyUsageKeyAgreement` = 1 << 4. -/
def KeyUsageKeyAgreement : Nat := 16
/-- Go `x509.KeyUsageCertSign` = 1 << 5. -/
def KeyUsageCertSign : Nat := 32
/-- Go `x509.KeyUsageCRLSign` = 1 << 6. -/
def KeyUsageCRLSign : Nat := 64
/-- Go `x509.KeyUsageEncipherOnly` = 1 << 7. -/
def KeyUsageEncipherOnly : Nat := 128
/-- Go `x509.KeyUsageDecipherOnly` = 1 << 8. -/
def KeyUsageDecipherOnly : Nat := 256

/-- `func (u KeyUsage) usage() x509.KeyUsage` (certificate.go lines 120-152). -/
def KeyUsage.usage (u : KeyUsage) : Nat :=
  let usage : Nat := 0
  let usage := if u.DigitalSignature then usage ||| KeyUsageDigitalSignature else usage
  let usage := if u.ContentCommitment then usage ||| KeyUsageContentCommitment else usage
  let usage := if u.KeyEncipherment then usage ||| KeyUsageKeyEncipherment else usage
  let usage := if u.DataEncipherment then usage ||| KeyUsageDataEncipherment else usage
  let usage := if u.KeyAgreement then usage ||| KeyUsageKeyAgreement else usage
  let usage := if u.CertSign then usage ||| KeyUsageCertSign else usage
  let usage := if u.CRLSign then usage ||| KeyUsageCRLSign else usage
  let usage := if u.EncipherOnly then usage ||| KeyUsageEncipherOnly else usage
  let usage := if u.DecipherOnly then usage ||| KeyUsageDecipherOnly else usage
  usage

/-- The values of Go's `x509.ExtKeyUsage` that the repository mentions. -/
inductive ExtKeyUsage where
  | serverAuth
  | clientAuth
  | codeSigning
  | emailProtection
  | timeStamping
  | ocspSigning
deriving DecidableEq

/-- `func (u KeyUsage) extendedUsage() []x509.ExtKeyUsage`
(certificate.go lines 154-175): starts from the empty slice and appends one
entry per true extended flag, in declaration order. -/
def KeyUsage.extendedUsage (u : KeyUsage) : List ExtKeyUsage :=
  let usage : List ExtKeyUsage := []
  let usage := if u.ServerAuth then usage ++ [ExtKeyUsage.serverAuth] else usage
  let usage := if u.ClientAuth then usage ++ [ExtKeyUsage.clientAuth] else usage
  let usage := if u.CodeSigning then usage ++ [ExtKeyUsage.codeSigning] else usage
  let usage := if u.EmailProtection then usage ++ [ExtKeyUsage.emailProtection] else usage
  let usage := if u.TimeStamping then usage ++ [ExtKeyUsage.timeStamping] else usage
  let usage := if u.OCSPSigning then usage ++ [ExtKeyUsage.ocspSigning] else usage
  usage

/-- The six extended usages in the fixed declaration order of
`KeyUsage.extendedUsage` (specification section 4.2). -/
def allExtKeyUsages : List ExtKeyUsage :=
  [ExtKeyUsage.serverAuth, ExtKeyUsage.clientAuth, ExtKeyUsage.codeSigning,
   ExtKeyUsage.emailProtection, ExtKeyUsage.timeStamping, ExtKeyUsage.ocspSigning]

/-- Which extended-usage flag of a `KeyUsage` a given `ExtKeyUsage` value
reads (used to state the specification of `extendedUsage` as a filter). -/
def KeyUsage.hasExtUsage (u : KeyUsage) : ExtKeyUsage → Bool
  | ExtKeyUsage.serverAuth => u.ServerAuth
  | ExtKeyUsage.clientAuth => u.ClientAuth
  | ExtKeyUsage.codeSigning => u.CodeSigning
  | ExtKeyUsage.emailProtection => u.EmailProtection
  | ExtKeyUsage.timeStamping => u.TimeStamping
  | ExtKeyUsage.ocspSigning => u.OCSPSigning

/-- `StatusProviders` (certificate.go lines 187-191). -/
structure StatusProviders where
  CRL : Option String
  OCSP : Option String
deriving DecidableEq

/-- `CertificateRequest` (certificate.go lines 177-185). -/
structure CertificateRequest where
  Subject : Name
  Validity : DateRange
  AlternateNames : List AlternateName
  Usage : KeyUsage
  IsCertificateAuthority : Bool
  StatusProviders : StatusProviders
deriving DecidableEq

/-- `Certificate` (certificate.go lines 193-200): the storage record. -/
structure Certificate where
  Serial : String
  Subject : Name
  CertificateAuthority : Bool
  CertificateData : String
  KeyData : String
deriving DecidableEq

/-- One hex digit of Go's `encoding/hex` alphabet, lower case. -/
def hexDigit (n : Nat) : Char :=
  if n < 10 then Char.ofNat (Char.toNat '0' + n) else Char.ofNat (Char.toNat 'a' + n - 10)

/-- Byte list to lower-case hex characters, two digits per byte
(Go `hex.EncodeToString`). -/
def hexEncodeBytes : List Nat → List Char
  | [] => []
  | b :: rest => hexDigit (b / 16) :: hexDigit (b % 16) :: hexEncodeBytes rest

/-- Go `hex.EncodeToString`. -/
def hexEncode (bs : List Nat) : String :=
  String.mk (hexEncodeBytes bs)

/-- Value of one hex character (Go `encoding/hex.fromHexChar`): digits,
lower-case and upper-case letters; anything else is an error. -/
def fromHexChar (c : Char) : Option Nat :=
  if '0' ≤ c ∧ c ≤ '9' then some (Char.toNat c - Char.toNat '0')
  else if 'a' ≤ c ∧ c ≤ 'f' then some (Char.toNat c - Char.toNat 'a' + 10)
  else if 'A' ≤ c ∧ c ≤ 'F' then some (Char.toNat c - Char.toNat 'A' + 10)
  else none

/-- Go `hex.DecodeString`: fails on an odd-length input or any non-hex
character, otherwise produces one byte per character pair. -/
def hexDecode : List Char → Option (List Nat)
  | [] => some []
  | [_] => none
  | a :: b :: rest =>
    match fromHexChar a, fromHexChar b, hexDecode rest with
    | some hi, some lo, some tail => some ((hi * 16 + lo) :: tail)
    | _, _, _ => none

/-- The typed failure of an issuance step (specification section 6 maps
these to `KeyGenerationFailed`, `InvalidAlternateName`, `SigningFailed` /
`EncodingFailed`).  `invalidIP` is `fmt.Errorf("invalid ip address %s", …)`
at certificate.go line 300; `invalidURL` is the error returned by
`url.Parse` at line 307. -/
inductive IssueError where
  | keyGenFailed
  | serialGenFailed
  | marshalKeyFailed
  | marshalPublicFailed
  | invalidIP : String → IssueError
  | invalidURL : String → IssueError
  | createFailed
deriving DecidableEq

/-- Outcome of a fragment of Go code that can return a value, return an
error to the caller, or abort the whole process (Go `panic`). -/
inductive GenResult (α : Type) where
  | ok : α → GenResult α
  | err : IssueError → GenResult α
  | aborted : GenResult α
deriving DecidableEq

/-- The one field of Go's `*x509.Certificate` (as produced by
`x509.ParseCertificate`) that the repository reads: the subject name. -/
structure ParsedCertificate where
  Subject : PkixName
deriving DecidableEq

/-- The fields of the Go `x509.Certificate` template that
`GenerateCertificate` writes, plus `IsCA`, which it leaves at the Go zero
value `false` (certificate.go lines 274-283). -/
structure Template where
  SerialNumber : Nat
  Subject : PkixName
  Issuer : PkixName
  NotBefore : Int
  NotAfter : Int
  KeyUsage : Nat
  BasicConstraintsValid : Bool
  IsCA : Bool
  SubjectKeyId : List Nat
  ExtKeyUsage : List ExtKeyUsage
  DNSNames : List String
  EmailAddresses : List String
  IPAddresses : List (List Nat)
  URIs : List String
  CRLDistributionPoints : List String
  OCSPServer : List String
deriving DecidableEq

/-- The Go zero value of `pkix.Name` restricted to the modelled fields. -/
def emptyPkixName : PkixName :=
  { Country := [], Organization := [], Locality := [], Province := [], CommonName := "" }

/-- Abstraction of the Go standard-library primitives the repository calls
but does not define.  Random draws (`keyDraw` for `ecdsa.GenerateKey`,
`serialDraw` for `crypto/rand.Int`) are pre-drawn values, `none` meaning
the secure random source failed; private keys and public keys are opaque
`Nat` handles; the parsers and marshallers are arbitrary functions. -/
structure Env where
  keyDraw : Option Nat
  serialDraw : Option Nat
  publicOf : Nat → Nat
  marshalPKCS8 : Nat → Option (List Nat)
  marshalPKIX : Nat → Option (List Nat)
  sha1sum : List Nat → List Nat
  parseIP : String → Option (List Nat)
  parseURL : String → Option String
  parseCertificate : List Nat → Option ParsedCertificate
  parsePKCS8 : List Nat → Option Nat
  createCertificate : Template → Sum Template ParsedCertificate → Nat → Nat → Option (List Nat)

/-- `serialNumberLimit := new(big.Int).Lsh(big.NewInt(1), 128)`
(certificate.go line 343). -/
def serialNumberLimit : Nat := 2 ^ 128

/-- `func randomSerialNumber() (*big.Int, error)` (certificate.go lines
342-345): `rand.Int(rand.Reader, serialNumberLimit)` returns a uniformly
random integer in `[0, serialNumberLimit)`; the abstracted random draw is
reduced into that range. -/
def randomSerialNumber (draw : Nat) : Nat :=
  draw % serialNumberLimit

/-- `func (c Certificate) certificateDataBytes() []byte` (certificate.go
lines 202-208): hex-decodes `CertificateData` and panics on failure. -/
def Certificate.certificateDataBytes (c : Certificate) : GenResult (List Nat) :=
  match hexDecode c.CertificateData.data with
  | none => GenResult.aborted
  | some d => GenResult.ok d

/-- `func (c Certificate) keyDataBytes() []byte` (certificate.go lines
210-216): hex-decodes `KeyData` and panics on failure. -/
def Certificate.keyDataBytes (c : Certificate) : GenResult (List Nat) :=
  match hexDecode c.KeyData.data with
  | none => GenResult.aborted
  | some d => GenResult.ok d

/-- `func (c Certificate) x509() *x509.Certificate` (certificate.go lines
226-232): DER-parses the certificate bytes and panics on failure. -/
def Certificate.x509 (c : Certificate) (parse : List Nat → Option ParsedCertificate) :
    GenResult ParsedCertificate :=
  match c.certificateDataBytes with
  | GenResult.aborted => GenResult.aborted
  | GenResult.err e => GenResult.err e
  | GenResult.ok d =>
    match parse d with
    | none => GenResult.aborted
    | some x => GenResult.ok x

/-- `func (c Certificate) pKey() crypto.PrivateKey` (certificate.go lines
236-242): parses the PKCS#8 key bytes and panics on failure. -/
def Certificate.pKey (c : Certificate) (parse : List Nat → Option Nat) : GenResult Nat :=
  match c.keyDataBytes with
  | GenResult.aborted => GenResult.aborted
  | GenResult.err e => GenResult.err e
  | GenResult.ok d =>
    match parse d with
    | none => GenResult.aborted
    | some k => GenResult.ok k

/-- The key material computed by `GenerateCertificate` before the template
is assembled (certificate.go lines 246-265). -/
structure KeyMaterial where
  key : Nat
  serial : Nat
  keyBytes : List Nat
  skid : List Nat
deriving DecidableEq

/-- Steps 1-6 of `GenerateCertificate` (certificate.go lines 246-265):
key generation, serial draw, PKCS#8 and PKIX marshalling, SHA-1 subject
key identifier. -/
def keyAndSerial (env : Env) : GenResult KeyMaterial :=
  match env.keyDraw with
  | none => GenResult.err IssueError.keyGenFailed
  | some k =>
    match env.serialDraw with
    | none => GenResult.err IssueError.serialGenFailed
    | some d =>
      match env.marshalPKCS8 k with
      | none => GenResult.err IssueError.marshalKeyFailed
      | some kb =>
        match env.marshalPKIX (env.publicOf k) with
        | none => GenResult.err IssueError.marshalPublicFailed
        | some pb =>
          GenResult.ok { key := k, serial := randomSerialNumber d,
                         keyBytes := kb, skid := env.sha1sum pb }

/-- The template literal of certificate.go lines 274-283: every field not
listed there keeps the Go zero value, in particular `IsCA = false`. -/
def baseTemplate (request : CertificateRequest) (serial : Nat) (skid : List Nat) : Template :=
  { SerialNumber := serial
    Subject := request.Subject.pkix
    Issuer := emptyPkixName
    NotBefore := request.Validity.NotBefore
    NotAfter := request.Validity.NotAfter
    KeyUsage := request.Usage.usage
    BasicConstraintsValid := true
    IsCA := false
    SubjectKeyId := skid
    ExtKeyUsage := []
    DNSNames := []
    EmailAddresses := []
    IPAddresses := []
    URIs := []
    CRLDistributionPoints := []
    OCSPServer := [] }

/-- One iteration of the alternate-name loop (certificate.go lines
289-314): dispatch on the `Type` tag; `dns` and `email` append verbatim,
`ip` and `uri` parse first and fail the issuance when parsing fails, and
any other tag falls through to the `default` branch, leaving the template
unchanged. -/
def applyAlternateName (env : Env) (tpl : Template) (name : AlternateName) :
    Except IssueError Template :=
  if name.Type' = AlternateNameTypeDNS then
    Except.ok { tpl with DNSNames := tpl.DNSNames ++ [name.Value] }
  else if name.Type' = AlternateNameTypeEmail then
    Except.ok { tpl with EmailAddresses := tpl.EmailAddresses ++ [name.Value] }
  else if name.Type' = AlternateNameTypeIP then
    match env.parseIP name.Value with
    | none => Except.error (IssueError.invalidIP name.Value)
    | some ip => Except.ok { tpl with IPAddresses := tpl.IPAddresses ++ [ip] }
  else if name.Type' = AlternateNameTypeURI then
    match env.parseURL name.Value with
    | none => Except.error (IssueError.invalidURL name.Value)
    | some u => Except.ok { tpl with URIs := tpl.URIs ++ [u] }
  else
    Except.ok tpl

/-- The whole alternate-name loop, returning on the first failure. -/
def applyAlternateNames (env : Env) : Template → List AlternateName → Except IssueError Template
  | tpl, [] => Except.ok tpl
  | tpl, n :: rest =>
    match applyAlternateName env tpl n with
    | Except.error e => Except.error e
    | Except.ok t => applyAlternateNames env t rest

/-- The status-provider assignments of certificate.go lines 316-322. -/
def applyStatusProviders (request : CertificateRequest) (tpl : Template) : Template :=
  let tpl := match request.StatusProviders.CRL with
    | some crl => { tpl with CRLDistributionPoints := [crl] }
    | none => tpl
  match request.StatusProviders.OCSP with
  | some o => { tpl with OCSPServer := [o] }
  | none => tpl

/-- The issuer branch of certificate.go lines 285-287: when an issuer is
given, its stored record is decoded (`Certificate.x509`, which may abort)
and its subject becomes the template's issuer. -/
def issuerSubject (env : Env) (issuer : Option Certificate) : GenResult (Option PkixName) :=
  match issuer with
  | none => GenResult.ok none
  | some i =>
    match i.x509 env.parseCertificate with
    | GenResult.aborted => GenResult.aborted
    | GenResult.err e => GenResult.err e
    | GenResult.ok pc => GenResult.ok (some pc.Subject)

/-- The x509 template exactly as it reaches `x509.CreateCertificate`:
base template (lines 274-283), issuer subject (285-287), alternate-name
loop (289-314), status providers (316-322). -/
def signedTemplate (env : Env) (request : CertificateRequest) (issuer : Option Certificate) :
    GenResult Template :=
  match keyAndSerial env with
  | GenResult.err e => GenResult.err e
  | GenResult.aborted => GenResult.aborted
  | GenResult.ok km =>
    let tpl := baseTemplate request km.serial km.skid
    match issuerSubject env issuer with
    | GenResult.err e => GenResult.err e
    | GenResult.aborted => GenResult.aborted
    | GenResult.ok osubj =>
      let tpl := match osubj with
        | some s => { tpl with Issuer := s }
        | none => tpl
      match applyAlternateNames env tpl request.AlternateNames with
      | Except.error e => GenResult.err e
      | Except.ok tpl => GenResult.ok (applyStatusProviders request tpl)

/-- `func GenerateCertificate(request CertificateRequest, issuer
*Certificate) (*Certificate, error)` (certificate.go lines 244-340).  The
storage record is created at lines 267-272 with
`CertificateAuthority: issuer == nil`; signing at lines 326-336 is
self-signed when `issuer` is nil and otherwise re-decodes the issuer's
certificate and key (each decode may abort, as in the Go source); the
signed bytes are hex-encoded into the record at line 338. -/
def GenerateCertificate (env : Env) (request : CertificateRequest)
    (issuer : Option Certificate) : GenResult Certificate :=
  match keyAndSerial env with
  | GenResult.err e => GenResult.err e
  | GenResult.aborted => GenResult.aborted
  | GenResult.ok km =>
    match signedTemplate env request issuer with
    | GenResult.err e => GenResult.err e
    | GenResult.aborted => GenResult.aborted
    | GenResult.ok tpl =>
      let record : Certificate :=
        { Serial := Nat.repr km.serial
          CertificateAuthority := issuer.isNone
          KeyData := hexEncode km.keyBytes
          Subject := request.Subject
          CertificateData := "" }
      match issuer with
      | none =>
        match env.createCertificate tpl (Sum.inl tpl) (env.publicOf km.key) km.key with
        | none => GenResult.err IssueError.createFailed
        | some certBytes =>
          GenResult.ok { record with CertificateData := hexEncode certBytes }
      | some i =>
        match i.x509 env.parseCertificate with
        | GenResult.aborted => GenResult.aborted
        | GenResult.err e => GenResult.err e
        | GenResult.ok pc =>
          match i.pKey env.parsePKCS8 with
          | GenResult.aborted => GenResult.aborted
          | GenResult.err e => GenResult.err e
          | GenResult.ok ik =>
            match env.createCertificate tpl (Sum.inr pc) (env.publicOf km.key) ik with
            | none => GenResult.err IssueError.createFailed
            | some certBytes =>
              GenResult.ok { record with CertificateData := hexEncode certBytes }

/-! ### Specification-side helpers (used only to state properties) -/

/-- The `dns`-typed entries of an alternate-name list, in input order. -/
def dnsEntries (l : List AlternateName) : List String :=
  (l.filter (fun n => n.Type' = AlternateNameTypeDNS)).map AlternateName.Value

/-- The `email`-typed entries of an alternate-name list, in input order. -/
def emailEntries (l : List AlternateName) : List String :=
  (l.filter (fun n => n.Type' = AlternateNameTypeEmail)).map AlternateName.Value

/-- The parsed `ip`-typed entries of an alternate-name list, in input order. -/
def ipEntries (env : Env) (l : List AlternateName) : List (List Nat) :=
  l.filterMap (fun n => if n.Type' = AlternateNameTypeIP then env.parseIP n.Value else none)

/-- The parsed `uri`-typed entries of an alternate-name list, in input order. -/
def uriEntries (env : Env) (l : List AlternateName) : List String :=
  l.filterMap (fun n => if n.Type' = AlternateNameTypeURI then env.parseURL n.Value else none)

/-- An alternate name that the loop of certificate.go lines 289-314 can
process without failing: if its tag is `ip` its value parses as an IP, and
if its tag is `uri` its value parses as a URL. -/
def processableAlternateName (env : Env) (n : AlternateName) : Prop :=
  (n.Type' = AlternateNameTypeIP → (env.parseIP n.Value).isSome = true) ∧
  (n.Type' = AlternateNameTypeURI → (env.parseURL n.Value).isSome = true)

/-- Extended-key-usage list of a successfully built template. -/
def GenResult.extKeyUsageOf : GenResult Template → Option (List ExtKeyUsage)
  | GenResult.ok t => some t.ExtKeyUsage
  | _ => none

/-- Serial string of a successfully issued certificate record. -/
def GenResult.serialOf : GenResult Certificate → Option String
  | GenResult.ok c => some c.Serial
  | _ => none

/-- CA flag of a successfully issued certificate record. -/
def GenResult.caOf : GenResult Certificate → Option Bool
  | GenResult.ok c => some c.CertificateAuthority
  | _ => none

/-! ### Concrete fixtures for witnesses and counterexamples -/

/-- An environment in which every standard-library primitive succeeds and
`ip` values never parse. -/
def envA : Env :=
  { keyDraw := some 7
    serialDraw := some 1
    publicOf := fun k => k
    marshalPKCS8 := fun _ => some []
    marshalPKIX := fun _ => some []
    sha1sum := fun _ => []
    parseIP := fun _ => none
    parseURL := fun _ => some ""
    parseCertificate := fun _ => some { Subject := emptyPkixName }
    parsePKCS8 := fun _ => some 0
    createCertificate := fun _ _ _ _ => some [] }

/-- `envA` with parsers that accept every `ip` and `uri` value. -/
def envB : Env :=
  { envA with
    parseIP := fun s => some [s.length]
    parseURL := fun s => some s }

/-- `envA` with a serial draw of zero. -/
def envZeroSerial : Env :=
  { envA with serialDraw := some 0 }

/-- A concrete subject. -/
def nameA : Name :=
  { Organization := "", City := "", Province := "", Country := "", CommonName := "t" }

/-- A usage with both `serverAuth` and `clientAuth` requested. -/
def usageA : KeyUsage :=
  { DigitalSignature := false, ContentCommitment := false, KeyEncipherment := false
    DataEncipherment := false, KeyAgreement := false, CertSign := false, CRLSign := false
    EncipherOnly := false, DecipherOnly := false, ServerAuth := true, ClientAuth := true
    CodeSigning := false, EmailProtection := false, TimeStamping := false, OCSPSigning := false }

/-- A request with a `dns` entry, an unrecognized entry, and both extended
usage flags set. -/
def reqA : CertificateRequest :=
  { Subject := nameA
    Validity := { NotBefore := 0, NotAfter := 1 }
    AlternateNames := [{ Type' := "dns", Value := "a.example" },
                       { Type' := "carrier-pigeon", Value := "x" }]
    Usage := usageA
    IsCertificateAuthority := true
    StatusProviders := { CRL := none, OCSP := none } }

/-- `reqA` with the unrecognized alternate name removed. -/
def reqAskipped : CertificateRequest :=
  { reqA with AlternateNames := [{ Type' := "dns", Value := "a.example" }] }

/-- `reqA` with an unparsable `ip` alternate name. -/
def reqBadIP : CertificateRequest :=
  { reqA with AlternateNames := [{ Type' := "ip", Value := "not-an-ip" }] }

/-- `reqA` with entries of different types interleaved. -/
def reqInterleaved : CertificateRequest :=
  { reqA with AlternateNames :=
      [{ Type' := "dns", Value := "a" }, { Type' := "ip", Value := "1.2.3.4" },
       { Type' := "email", Value := "e@x" }, { Type' := "uri", Value := "u://v" },
       { Type' := "dns", Value := "b" }, { Type' := "carrier-pigeon", Value := "z" }] }

/-- The record produced by `GenerateCertificate envA reqA (some issA)`. -/
def certIssuerSigned : Certificate :=
  { Serial := "1", Subject := nameA, CertificateAuthority := false,
    CertificateData := "", KeyData := "" }

/-- The record produced by `GenerateCertificate envA reqA none`. -/
def certSelfSigned : Certificate :=
  { Serial := "1", Subject := nameA, CertificateAuthority := true,
    CertificateData := "", KeyData := "" }

/-- The record produced with a zero serial draw. -/
def certZeroSerial : Certificate :=
  { Serial := "0", Subject := nameA, CertificateAuthority := true,
    CertificateData := "", KeyData := "" }

/-- A stored issuer record that decodes under `envA`. -/
def issA : Certificate :=
  { Serial := "1", Subject := nameA, CertificateAuthority := true,
    CertificateData := "", KeyData := "" }

/-- A stored record whose hex fields are corrupt (odd length). -/
def certCorrupt : Certificate :=
  { Serial := "1", Subject := nameA, CertificateAuthority := false,
    CertificateData := "a", KeyData := "a" }

/-- The key material produced by `keyAndSerial envA`. -/
def kmA : KeyMaterial :=
  { key := 7, serial := 1, keyBytes := [], skid := [] }

/-- The template signed by `GenerateCertificate envA reqA none`. -/
def tplA : Template :=
  { SerialNumber := 1
    Subject := nameA.pkix
    Issuer := emptyPkixName
    NotBefore := 0
    NotAfter := 1
    KeyUsage := 0
    BasicConstraintsValid := true
    IsCA := false
    SubjectKeyId := []
    ExtKeyUsage := []
    DNSNames := ["a.example"]
    EmailAddresses := []
    IPAddresses := []
    URIs := []
    CRLDistributionPoints := []
    OCSPServer := [] }

/-- The template signed by `GenerateCertificate envB reqInterleaved none`. -/
def tplInterleaved : Template :=
  { tplA with
    DNSNames := ["a", "b"]
    EmailAddresses := ["e@x"]
    IPAddresses := [[7]]
    URIs := ["u://v"] }

/-! ### Helper lemmas -/

theorem tyDNS_ne_email : AlternateNameTypeDNS ≠ AlternateNameTypeEmail := by decide

theorem tyDNS_ne_ip : AlternateNameTypeDNS ≠ AlternateNameTypeIP := by decide

theorem tyDNS_ne_uri : AlternateNameTypeDNS ≠ AlternateNameTypeURI := by decide

theorem tyEmail_ne_dns : AlternateNameTypeEmail ≠ AlternateNameTypeDNS := by decide

theorem tyEmail_ne_ip : AlternateNameTypeEmail ≠ AlternateNameTypeIP := by decide

theorem tyEmail_ne_uri : AlternateNameTypeEmail ≠ AlternateNameTypeURI := by decide

theorem tyIP_ne_dns : AlternateNameTypeIP ≠ AlternateNameTypeDNS := by decide

theorem tyIP_ne_email : AlternateNameTypeIP ≠ AlternateNameTypeEmail := by decide

theorem tyIP_ne_uri : AlternateNameTypeIP ≠ AlternateNameTypeURI := by decide

theorem tyURI_ne_dns : AlternateNameTypeURI ≠ AlternateNameTypeDNS := by decide

theorem tyURI_ne_email : AlternateNameTypeURI ≠ AlternateNameTypeEmail := by decide

theorem tyURI_ne_ip : AlternateNameTypeURI ≠ AlternateNameTypeIP := by decide

theorem dnsEntries_append (l1 l2 : List AlternateName) :
    dnsEntries (l1 ++ l2) = dnsEntries l1 ++ dnsEntries l2 := by
  simp [dnsEntries, List.filter_append]

theorem emailEntries_append (l1 l2 : List AlternateName) :
    emailEntries (l1 ++ l2) = emailEntries l1 ++ emailEntries l2 := by
  simp [emailEntries, List.filter_append]

theorem ipEntries_append (env : Env) (l1 l2 : List AlternateName) :
    ipEntries env (l1 ++ l2) = ipEntries env l1 ++ ipEntries env l2 := by
  simp [ipEntries, List.filterMap_append]

theorem uriEntries_append (env : Env) (l1 l2 : List AlternateName) :
    uriEntries env (l1 ++ l2) = uriEntries env l1 ++ uriEntries env l2 := by
  simp [uriEntries, List.filterMap_append]

theorem applyAlternateName_ok {env : Env} {tpl t : Template} {n : AlternateName}
    (h : applyAlternateName env tpl n = Except.ok t) :
    t = { tpl with
          DNSNames := tpl.DNSNames ++ dnsEntries [n]
          EmailAddresses := tpl.EmailAddresses ++ emailEntries [n]
          IPAddresses := tpl.IPAddresses ++ ipEntries env [n]
          URIs := tpl.URIs ++ uriEntries env [n] } := by
  unfold applyAlternateName at h
  unfold dnsEntries emailEntries ipEntries uriEntries
  by_cases h1 : n.Type' = AlternateNameTypeDNS
  · rw [if_pos h1] at h
    cases h
    simp [h1, tyDNS_ne_email, tyDNS_ne_ip, tyDNS_ne_uri, tyEmail_ne_dns, tyEmail_ne_ip, tyEmail_ne_uri, tyIP_ne_dns, tyIP_ne_email, tyIP_ne_uri, tyURI_ne_dns, tyURI_ne_email, tyURI_ne_ip]
  · rw [if_neg h1] at h
    by_cases h2 : n.Type' = AlternateNameTypeEmail
    · rw [if_pos h2] at h
      cases h
      simp [h1, h2, tyDNS_ne_email, tyDNS_ne_ip, tyDNS_ne_uri, tyEmail_ne_dns, tyEmail_ne_ip, tyEmail_ne_uri, tyIP_ne_dns, tyIP_ne_email, tyIP_ne_uri, tyURI_ne_dns, tyURI_ne_email, tyURI_ne_ip]
    · rw [if_neg h2] at h
      by_cases h3 : n.Type' = AlternateNameTypeIP
      · rw [if_pos h3] at h
        cases hp : env.parseIP n.Value with
        | none => rw [hp] at h; cases h
        | some ip =>
          rw [hp] at h
          cases h
          simp [h1, h2, h3, hp, tyDNS_ne_email, tyDNS_ne_ip, tyDNS_ne_uri, tyEmail_ne_dns, tyEmail_ne_ip, tyEmail_ne_uri, tyIP_ne_dns, tyIP_ne_email, tyIP_ne_uri, tyURI_ne_dns, tyURI_ne_email, tyURI_ne_ip]
      · rw [if_neg h3] at h
        by_cases h4 : n.Type' = AlternateNameTypeURI
        · rw [if_pos h4] at h
          cases hu : env.parseURL n.Value with
          | none => rw [hu] at h; cases h
          | some u =>
            rw [hu] at h
            cases h
            simp [h1, h2, h3, h4, hu, tyDNS_ne_email, tyDNS_ne_ip, tyDNS_ne_uri, tyEmail_ne_dns, tyEmail_ne_ip, tyEmail_ne_uri, tyIP_ne_dns, tyIP_ne_email, tyIP_ne_uri, tyURI_ne_dns, tyURI_ne_email, tyURI_ne_ip]
        · rw [if_neg h4] at h
          cases h
          simp [h1, h2, h3, h4]

theorem applyAlternateNames_ok {env : Env} {l : List AlternateName} {tpl tpl' : Template}
    (h : applyAlternateNames env tpl l = Except.ok tpl') :
    tpl' = { tpl with
             DNSNames := tpl.DNSNames ++ dnsEntries l
             EmailAddresses := tpl.EmailAddresses ++ emailEntries l
             IPAddresses := tpl.IPAddresses ++ ipEntries env l
             URIs := tpl.URIs ++ uriEntries env l } := by
  induction l generalizing tpl with
  | nil =>
    unfold applyAlternateNames at h
    cases h
    simp [dnsEntries, emailEntries, ipEntries, uriEntries]
  | cons n rest ih =>
    unfold applyAlternateNames at h
    cases hstep : applyAlternateName env tpl n with
    | error e => rw [hstep] at h; cases h
    | ok t =>
      rw [hstep] at h
      have ht := applyAlternateName_ok hstep
      have h2 := ih h
      subst ht
      rw [h2]
      have hc : (n :: rest) = [n] ++ rest := rfl
      rw [hc, dnsEntries_append, emailEntries_append, ipEntries_append, uriEntries_append]
      simp [List.append_assoc]

theorem applyStatusProviders_IsCA (r : CertificateRequest) (t : Template) :
    (applyStatusProviders r t).IsCA = t.IsCA := by
  unfold applyStatusProviders
  cases r.StatusProviders.CRL <;> cases r.StatusProviders.OCSP <;> simp

theorem applyStatusProviders_BCV (r : CertificateRequest) (t : Template) :
    (applyStatusProviders r t).BasicConstraintsValid = t.BasicConstraintsValid := by
  unfold applyStatusProviders
  cases r.StatusProviders.CRL <;> cases r.StatusProviders.OCSP <;> simp

theorem applyStatusProviders_ExtKeyUsage (r : CertificateRequest) (t : Template) :
    (applyStatusProviders r t).ExtKeyUsage = t.ExtKeyUsage := by
  unfold applyStatusProviders
  cases r.StatusProviders.CRL <;> cases r.StatusProviders.OCSP <;> simp

theorem applyStatusProviders_DNSNames (r : CertificateRequest) (t : Template) :
    (applyStatusProviders r t).DNSNames = t.DNSNames := by
  unfold applyStatusProviders
  cases r.StatusProviders.CRL <;> cases r.StatusProviders.OCSP <;> simp

theorem applyStatusProviders_EmailAddresses (r : CertificateRequest) (t : Template) :
    (applyStatusProviders r t).EmailAddresses = t.EmailAddresses := by
  unfold applyStatusProviders
  cases r.StatusProviders.CRL <;> cases r.StatusProviders.OCSP <;> simp

theorem applyStatusProviders_IPAddresses (r : CertificateRequest) (t : Template) :
    (applyStatusProviders r t).IPAddresses = t.IPAddresses := by
  unfold applyStatusProviders
  cases r.StatusProviders.CRL <;> cases r.StatusProviders.OCSP <;> simp

theorem applyStatusProviders_URIs (r : CertificateRequest) (t : Template) :
    (applyStatusProviders r t).URIs = t.URIs := by
  unfold applyStatusProviders
  cases r.StatusProviders.CRL <;> cases r.StatusProviders.OCSP <;> simp

/-- A successful `signedTemplate` run is the status-provider update of the
base template with the issuer subject installed and the four alternate-name
lists collected from the request, grouped by type in input order. -/
theorem signedTemplate_ok {env : Env} {request : CertificateRequest}
    {issuer : Option Certificate} {tpl : Template}
    (h : signedTemplate env request issuer = GenResult.ok tpl) :
    ∃ km osubj,
      keyAndSerial env = GenResult.ok km ∧
      issuerSubject env issuer = GenResult.ok osubj ∧
      tpl = applyStatusProviders request
        { baseTemplate request km.serial km.skid with
          Issuer := osubj.getD emptyPkixName
          DNSNames := dnsEntries request.AlternateNames
          EmailAddresses := emailEntries request.AlternateNames
          IPAddresses := ipEntries env request.AlternateNames
          URIs := uriEntries env request.AlternateNames } := by
  unfold signedTemplate at h
  cases hks : keyAndSerial env with
  | err e => simp only [hks] at h; cases h
  | aborted => simp only [hks] at h; cases h
  | ok km =>
    simp only [hks] at h
    cases his : issuerSubject env issuer with
    | err e => simp only [his] at h; cases h
    | aborted => simp only [his] at h; cases h
    | ok osubj =>
      simp only [his] at h
      refine ⟨km, osubj, rfl, rfl, ?_⟩
      cases osubj with
      | none =>
        cases ha : applyAlternateNames env (baseTemplate request km.serial km.skid)
            request.AlternateNames with
        | error e => simp only [ha] at h; cases h
        | ok t =>
          simp only [ha] at h
          cases h
          have ht := applyAlternateNames_ok ha
          rw [ht]
          simp [baseTemplate]
      | some s =>
        cases ha : applyAlternateNames env
            { baseTemplate request km.serial km.skid with Issuer := s }
            request.AlternateNames with
        | error e => simp only [ha] at h; cases h
        | ok t =>
          simp only [ha] at h
          cases h
          have ht := applyAlternateNames_ok ha
          rw [ht]
          simp [baseTemplate]

/-- A successfully issued record carries the serial's decimal string, the
CA flag `issuer == nil`, the request's subject, and the hex-encoded private
key (certificate.go lines 267-272 and 338). -/
theorem generateCertificate_ok_record {env : Env} {request : CertificateRequest}
    {issuer : Option Certificate} {c : Certificate}
    (h : GenerateCertificate env request issuer = GenResult.ok c) :
    ∃ km : KeyMaterial, keyAndSerial env = GenResult.ok km ∧
      c.Serial = Nat.repr km.serial ∧
      c.CertificateAuthority = issuer.isNone ∧
      c.Subject = request.Subject ∧
      c.KeyData = hexEncode km.keyBytes := by
  unfold GenerateCertificate at h
  cases hks : keyAndSerial env with
  | err e => simp only [hks] at h; cases h
  | aborted => simp only [hks] at h; cases h
  | ok km =>
    simp only [hks] at h
    refine ⟨km, rfl, ?_⟩
    cases hst : signedTemplate env request issuer with
    | err e => simp only [hst] at h; cases h
    | aborted => simp only [hst] at h; cases h
    | ok tpl =>
      simp only [hst] at h
      cases issuer with
      | none =>
        cases hcc : env.createCertificate tpl (Sum.inl tpl) (env.publicOf km.key) km.key with
        | none => simp only [hcc] at h; cases h
        | some cb =>
          simp only [hcc] at h
          cases h
          exact ⟨rfl, rfl, rfl, rfl⟩
      | some i =>
        cases hx : Certificate.x509 i env.parseCertificate with
        | aborted => simp only [hx] at h; cases h
        | err e => simp only [hx] at h; cases h
        | ok pc =>
          simp only [hx] at h
          cases hpk : Certificate.pKey i env.parsePKCS8 with
          | aborted => simp only [hpk] at h; cases h
          | err e => simp only [hpk] at h; cases h
          | ok ik =>
            simp only [hpk] at h
            cases hcc : env.createCertificate tpl (Sum.inr pc) (env.publicOf km.key) ik with
            | none => simp only [hcc] at h; cases h
            | some cb =>
              simp only [hcc] at h
              cases h
              exact ⟨rfl, rfl, rfl, rfl⟩

/-- The serial produced by `keyAndSerial` is strictly below `2^128`. -/
theorem keyAndSerial_serial_lt {env : Env} {km : KeyMaterial}
    (h : keyAndSerial env = GenResult.ok km) : km.serial < serialNumberLimit := by
  unfold keyAndSerial at h
  cases hk : env.keyDraw with
  | none => simp only [hk] at h; cases h
  | some k =>
    simp only [hk] at h
    cases hd : env.serialDraw with
    | none => simp only [hd] at h; cases h
    | some d =>
      simp only [hd] at h
      cases hm : env.marshalPKCS8 k with
      | none => simp only [hm] at h; cases h
      | some kb =>
        simp only [hm] at h
        cases hp : env.marshalPKIX (env.publicOf k) with
        | none => simp only [hp] at h; cases h
        | some pb =>
          simp only [hp] at h
          cases h
          exact Nat.mod_lt _ (pow_pos (by norm_num) 128)

/-- An alternate name the loop can process never fails its iteration. -/
theorem processable_step {env : Env} (tpl : Template) {n : AlternateName}
    (h : processableAlternateName env n) :
    ∃ t, applyAlternateName env tpl n = Except.ok t := by
  unfold applyAlternateName
  by_cases h1 : n.Type' = AlternateNameTypeDNS
  · rw [if_pos h1]; exact ⟨_, rfl⟩
  · rw [if_neg h1]
    by_cases h2 : n.Type' = AlternateNameTypeEmail
    · rw [if_pos h2]; exact ⟨_, rfl⟩
    · rw [if_neg h2]
      by_cases h3 : n.Type' = AlternateNameTypeIP
      · rw [if_pos h3]
        obtain ⟨ip, hip⟩ := Option.isSome_iff_exists.mp (h.1 h3)
        rw [hip]; exact ⟨_, rfl⟩
      · rw [if_neg h3]
        by_cases h4 : n.Type' = AlternateNameTypeURI
        · rw [if_pos h4]
          obtain ⟨u, hu⟩ := Option.isSome_iff_exists.mp (h.2 h4)
          rw [hu]; exact ⟨_, rfl⟩
        · rw [if_neg h4]; exact ⟨_, rfl⟩

/-- If an `ip` entry fails to parse and everything before it is
processable, the loop fails with the `invalid ip address` error, whatever
the template accumulator. -/
theorem loop_fails_on_bad_ip {env : Env} {pre : List AlternateName}
    {entry : AlternateName} {rest : List AlternateName}
    (hpre : ∀ n ∈ pre, processableAlternateName env n)
    (hty : entry.Type' = AlternateNameTypeIP)
    (hip : env.parseIP entry.Value = none) :
    ∀ tpl, applyAlternateNames env tpl (pre ++ entry :: rest) =
      Except.error (IssueError.invalidIP entry.Value) := by
  have hstep : ∀ tpl, applyAlternateName env tpl entry =
      Except.error (IssueError.invalidIP entry.Value) := by
    intro tpl
    unfold applyAlternateName
    rw [hty]
    rw [if_neg tyIP_ne_dns, if_neg tyIP_ne_email, if_pos rfl, hip]
  induction pre with
  | nil =>
    intro tpl
    show applyAlternateNames env tpl (entry :: rest) = _
    simp only [applyAlternateNames, hstep]
  | cons p ps ih =>
    intro tpl
    have hp : processableAlternateName env p := hpre p (by simp)
    have hps : ∀ n ∈ ps, processableAlternateName env n := fun n hn => hpre n (by simp [hn])
    obtain ⟨t, ht⟩ := processable_step tpl hp
    have hps2 := ih hps
    show applyAlternateNames env tpl (p :: (ps ++ entry :: rest)) = _
    simp only [applyAlternateNames, ht]
    exact hps2 t

/-- An entry whose tag is none of the four recognized values leaves the
loop's behaviour unchanged: it can be deleted from the list. -/
theorem skip_unknown_loop {env : Env} {entry : AlternateName}
    (h1 : entry.Type' ≠ AlternateNameTypeDNS)
    (h2 : entry.Type' ≠ AlternateNameTypeEmail)
    (h3 : entry.Type' ≠ AlternateNameTypeIP)
    (h4 : entry.Type' ≠ AlternateNameTypeURI) :
    ∀ (pre rest : List AlternateName) (tpl : Template),
      applyAlternateNames env tpl (pre ++ entry :: rest) =
        applyAlternateNames env tpl (pre ++ rest) := by
  have hstep : ∀ tpl, applyAlternateName env tpl entry = Except.ok tpl := by
    intro tpl
    unfold applyAlternateName
    rw [if_neg h1, if_neg h2, if_neg h3, if_neg h4]
  intro pre
  induction pre with
  | nil =>
    intro rest tpl
    show applyAlternateNames env tpl (entry :: rest) = applyAlternateNames env tpl rest
    simp only [applyAlternateNames, hstep]
  | cons p ps ih =>
    intro rest tpl
    show applyAlternateNames env tpl (p :: (ps ++ entry :: rest)) =
      applyAlternateNames env tpl (p :: (ps ++ rest))
    simp only [applyAlternateNames]
    cases hstep2 : applyAlternateName env tpl p with
    | error e => rfl
    | ok t => exact ih rest t

/-! ### Claim theorems -/

/-- C10: `fromDistinguishedName` is the inverse of `toDistinguishedName`:
for every `Name` n, `nameFromPkix (n.pkix) = n`; decoding takes the first
element of each (singleton) attribute list and would leave a field empty
were the attribute absent. -/
theorem nameFromPkix_pkix_inverse (n : Name) : nameFromPkix n.pkix = n := rfl

/-- C9: `extendedUsage` returns exactly one entry per true extended flag,
in the fixed declaration order serverAuth, clientAuth, codeSigning,
emailProtection, timeStamping, ocspSigning, i.e. it is the filter of that
ordered list by the flags; an all-false input therefore yields `[]`. -/
theorem extendedUsage_filter_order (u : KeyUsage) :
    u.extendedUsage = allExtKeyUsages.filter u.hasExtUsage := by
  obtain ⟨b1, b2, b3, b4, b5, b6, b7, b8, b9, sA, cA, cS, eP, tS, oS⟩ := u
  cases sA <;> cases cA <;> cases cS <;> cases eP <;> cases tS <;> cases oS <;> rfl

/-- C1 (amended): the record's `CertificateAuthority` flag equals
`issuer == nil` — `true` for every self-signed issuance and `false` for
every issuer-signed issuance; the request's `IsCertificateAuthority` flag
is ignored in both cases (it is read nowhere in certificate.go). -/
theorem certificateAuthority_eq_issuer_isNone (env : Env) (request : CertificateRequest)
    (issuer : Option Certificate) (c : Certificate)
    (h : GenerateCertificate env request issuer = GenResult.ok c) :
    c.CertificateAuthority = issuer.isNone := by
  obtain ⟨km, _, _, hca, _, _⟩ := generateCertificate_ok_record h
  exact hca

/-- Witness for C1 (amended) at a concrete issuer-signed issuance. -/
theorem certificateAuthority_eq_issuer_isNone_witness :
    certIssuerSigned.CertificateAuthority = (some issA).isNone :=
  certificateAuthority_eq_issuer_isNone envA reqA (some issA) certIssuerSigned (by decide)

/-- C1 counterexample: a request with `IsCertificateAuthority = true`
issued against a present issuer yields a record with
`CertificateAuthority = false`, so issuer-present issuance does not honor
the request's flag. -/
theorem request_ca_flag_ignored_cex :
    reqA.IsCertificateAuthority = true ∧
    GenResult.caOf (GenerateCertificate envA reqA (some issA)) = some false := by decide

/-- C2 (code bug evaluation): with `serverAuth` and `clientAuth` both
requested, `extendedUsage` computes `[serverAuth, clientAuth]`, yet the
template that reaches the signer carries an empty extended-key-usage list —
`GenerateCertificate` hard-codes `ExtKeyUsage: []x509.ExtKeyUsage{}` and
never calls `extendedUsage`. -/
theorem extKeyUsage_dropped_from_template :
    reqA.Usage.extendedUsage = [ExtKeyUsage.serverAuth, ExtKeyUsage.clientAuth] ∧
    GenResult.extKeyUsageOf (signedTemplate envA reqA none) = some [] := by decide

/-- C3 (amended): when hex decoding or certificate/key parsing of a stored
record's data fails, the accessor aborts the process (Go panic) instead of
returning a recoverable error to the caller. -/
theorem decode_failure_aborts (c : Certificate)
    (parseC : List Nat → Option ParsedCertificate) (parseK : List Nat → Option Nat) :
    ((hexDecode c.CertificateData.data).bind parseC = none →
      Certificate.x509 c parseC = GenResult.aborted) ∧
    ((hexDecode c.KeyData.data).bind parseK = none →
      Certificate.pKey c parseK = GenResult.aborted) := by
  constructor
  · intro h
    unfold Certificate.x509 Certificate.certificateDataBytes
    cases hd : hexDecode c.CertificateData.data with
    | none => rfl
    | some d =>
      rw [hd] at h
      have hC : parseC d = none := h
      simp [hC]
  · intro h
    unfold Certificate.pKey Certificate.keyDataBytes
    cases hd : hexDecode c.KeyData.data with
    | none => rfl
    | some d =>
      rw [hd] at h
      have hK : parseK d = none := h
      simp [hK]

/-- Witness for C3 (amended) at a record whose two hex fields are corrupt. -/
theorem decode_failure_aborts_witness :
    Certificate.x509 certCorrupt (fun _ => none) = GenResult.aborted ∧
    Certificate.pKey certCorrupt (fun _ => none) = GenResult.aborted :=
  ⟨(decode_failure_aborts certCorrupt (fun _ => none) (fun _ => none)).1 (by decide),
   (decode_failure_aborts certCorrupt (fun _ => none) (fun _ => none)).2 (by decide)⟩

/-- C3 counterexample: decoding a record whose `certificateData` hex string
was truncated to odd length aborts (panics); no recoverable `CorruptRecord`
error value is returned to the caller. -/
theorem truncated_record_aborts_cex :
    Certificate.certificateDataBytes certCorrupt = GenResult.aborted := by decide

/-- C4: the template passed to the signer always has
`BasicConstraintsValid = true` and `IsCA = false` (the Go zero value, never
assigned), for any request and issuer; yet the self-signed record returned
to the caller is marked `CertificateAuthority = true` — the CA marking
lives only in the storage record, never in the signed template. -/
theorem template_never_asserts_ca (env : Env) (request : CertificateRequest)
    (issuer : Option Certificate) (tpl : Template) (c : Certificate) :
    (signedTemplate env request issuer = GenResult.ok tpl →
      tpl.BasicConstraintsValid = true ∧ tpl.IsCA = false) ∧
    (GenerateCertificate env request none = GenResult.ok c →
      c.CertificateAuthority = true) := by
  constructor
  · intro h
    obtain ⟨km, osubj, hks, his, htpl⟩ := signedTemplate_ok h
    rw [htpl, applyStatusProviders_BCV, applyStatusProviders_IsCA]
    exact ⟨rfl, rfl⟩
  · intro h
    obtain ⟨km, _, _, hca, _, _⟩ := generateCertificate_ok_record h
    exact hca

/-- Witness for C4 at a concrete self-signed issuance. -/
theorem template_never_asserts_ca_witness :
    (tplA.BasicConstraintsValid = true ∧ tplA.IsCA = false) ∧
    certSelfSigned.CertificateAuthority = true :=
  ⟨(template_never_asserts_ca envA reqA none tplA certSelfSigned).1 (by decide),
   (template_never_asserts_ca envA reqA none tplA certSelfSigned).2 (by decide)⟩

/-- C5 (amended): every serial stored in an issued record is the decimal
string of a nonnegative integer strictly below `2^128` (the draw is
uniform over `[0, 2^128)`, which includes zero, so positivity fails). -/
theorem serial_in_range (env : Env) (request : CertificateRequest)
    (issuer : Option Certificate) (c : Certificate)
    (h : GenerateCertificate env request issuer = GenResult.ok c) :
    ∃ n : Nat, n < serialNumberLimit ∧ c.Serial = Nat.repr n := by
  obtain ⟨km, hks, hserial, _, _, _⟩ := generateCertificate_ok_record h
  exact ⟨km.serial, keyAndSerial_serial_lt hks, hserial⟩

/-- Witness for C5 (amended) at a concrete issuance. -/
theorem serial_in_range_witness :
    ∃ n : Nat, n < serialNumberLimit ∧ certZeroSerial.Serial = Nat.repr n :=
  serial_in_range envZeroSerial reqA none certZeroSerial (by decide)

/-- C5 counterexample: a zero draw — a legal value of the uniform draw over
`[0, 2^128)` — produces a stored record whose serial is the decimal string
of 0, which is not a positive integer. -/
theorem serial_zero_cex :
    GenResult.serialOf (GenerateCertificate envZeroSerial reqA none) =
      some (Nat.repr 0) := by decide

/-- C6: when a request contains an `ip` alternate name whose value does not
parse, and the loop reaches it (all earlier entries processable, key/serial
generation and issuer decoding succeeded), the whole issuance fails with
the `invalid ip address` error and no certificate is returned. -/
theorem invalid_ip_aborts_issuance (env : Env) (request : CertificateRequest)
    (issuer : Option Certificate) (pre : List AlternateName) (entry : AlternateName)
    (rest : List AlternateName) (km : KeyMaterial) (osubj : Option PkixName)
    (hl : request.AlternateNames = pre ++ entry :: rest)
    (hty : entry.Type' = AlternateNameTypeIP)
    (hip : env.parseIP entry.Value = none)
    (hpre : ∀ n ∈ pre, processableAlternateName env n)
    (hks : keyAndSerial env = GenResult.ok km)
    (his : issuerSubject env issuer = GenResult.ok osubj) :
    GenerateCertificate env request issuer =
      GenResult.err (IssueError.invalidIP entry.Value) := by
  have hloop := @loop_fails_on_bad_ip env pre entry rest hpre hty hip
  have hsig : signedTemplate env request issuer =
      GenResult.err (IssueError.invalidIP entry.Value) := by
    unfold signedTemplate
    simp only [hks, his]
    cases osubj with
    | none => rw [hl]; simp only [hloop]
    | some s => rw [hl]; simp only [hloop]
  unfold GenerateCertificate
  simp only [hks, hsig]

/-- Witness for C6 at the concrete request with an `ip` entry whose value
is "not-an-ip". -/
theorem invalid_ip_aborts_issuance_witness :
    GenerateCertificate envA reqBadIP none =
      GenResult.err (IssueError.invalidIP "not-an-ip") :=
  invalid_ip_aborts_issuance envA reqBadIP none []
    { Type' := "ip", Value := "not-an-ip" } [] kmA none
    (by decide) (by decide) (by decide) (by simp) (by decide) (by decide)

/-- C7: an alternate name whose tag is none of dns/email/ip/uri is silently
skipped — issuing the request is identical to issuing the request with
that entry deleted, so the entry never causes an error by itself and the
produced certificate's alternate-name lists omit it. -/
theorem unknown_type_skipped (env : Env) (request : CertificateRequest)
    (issuer : Option Certificate) (pre : List AlternateName) (entry : AlternateName)
    (rest : List AlternateName)
    (hl : request.AlternateNames = pre ++ entry :: rest)
    (h1 : entry.Type' ≠ AlternateNameTypeDNS)
    (h2 : entry.Type' ≠ AlternateNameTypeEmail)
    (h3 : entry.Type' ≠ AlternateNameTypeIP)
    (h4 : entry.Type' ≠ AlternateNameTypeURI) :
    GenerateCertificate env request issuer =
      GenerateCertificate env { request with AlternateNames := pre ++ rest } issuer := by
  have hloop : ∀ tpl, applyAlternateNames env tpl request.AlternateNames =
      applyAlternateNames env tpl (pre ++ rest) := by
    intro tpl
    rw [hl]
    exact skip_unknown_loop h1 h2 h3 h4 pre rest tpl
  unfold GenerateCertificate signedTemplate
  simp only [hloop]
  rfl

/-- Witness for C7 at the concrete request containing a "carrier-pigeon"
entry. -/
theorem unknown_type_skipped_witness :
    GenerateCertificate envA reqA none =
      GenerateCertificate envA
        { reqA with AlternateNames := [{ Type' := "dns", Value := "a.example" }] ++ [] } none :=
  unknown_type_skipped envA reqA none [{ Type' := "dns", Value := "a.example" }]
    { Type' := "carrier-pigeon", Value := "x" } []
    (by decide) (by decide) (by decide) (by decide) (by decide)

/-- C8: in every successfully built template, the DNS, email, IP and URI
lists contain exactly the request's entries of that type — parsed for ip
and uri — grouped by type, in input order within each type. -/
theorem alternate_names_grouped_by_type (env : Env) (request : CertificateRequest)
    (issuer : Option Certificate) (tpl : Template)
    (h : signedTemplate env request issuer = GenResult.ok tpl) :
    tpl.DNSNames = dnsEntries request.AlternateNames ∧
    tpl.EmailAddresses = emailEntries request.AlternateNames ∧
    tpl.IPAddresses = ipEntries env request.AlternateNames ∧
    tpl.URIs = uriEntries env request.AlternateNames := by
  obtain ⟨km, osubj, hks, his, htpl⟩ := signedTemplate_ok h
  rw [htpl, applyStatusProviders_DNSNames, applyStatusProviders_EmailAddresses,
      applyStatusProviders_IPAddresses, applyStatusProviders_URIs]
  exact ⟨rfl, rfl, rfl, rfl⟩

/-- Witness for C8 at a request with interleaved entry types. -/
theorem alternate_names_grouped_by_type_witness :
    tplInterleaved.DNSNames = dnsEntries reqInterleaved.AlternateNames ∧
    tplInterleaved.EmailAddresses = emailEntries reqInterleaved.AlternateNames ∧
    tplInterleaved.IPAddresses = ipEntries envB reqInterleaved.AlternateNames ∧
    tplInterleaved.URIs = uriEntries envB reqInterleaved.AlternateNames :=
  alternate_names_grouped_by_type envB reqInterleaved none tplInterleaved (by decide)

end CertGen
